import Mathlib

/-!
Verification of the visit financial ledger of a hospital visit-management
backend (models/Visit.js, middleware/paymentEligibility.js and the visit
routes). Monetary values are JavaScript numbers in the source; all the
arithmetic performed on them (sums, products, `pct / 100` splits) is modelled
exactly over the rationals. Mongo ObjectId references are modelled as natural
numbers, optional document fields as `Option`. Clinical sub-records not read
or written by any verified operation (vital signs, diagnoses, symptoms,
timestamps) are omitted from the state.
-/

namespace SegeseBackend

/-- One billable line item of a visit (sub-schema serviceChargeSchema in
models/Visit.js). -/
structure ServiceCharge where
  serviceType : String
  serviceName : String
  serviceId : Option Nat
  price : ℚ
  quantity : ℚ
  totalPrice : ℚ
  isCoveredByInsurance : Bool
  insuranceCoverage : ℚ
  patientResponsibility : ℚ
  paymentStatus : String
  paidAmount : ℚ
  addedBy : Option Nat
  notes : Option String
  deriving DecidableEq

/-- One payment event of a visit (sub-schema paymentRecordSchema in
models/Visit.js). -/
structure PaymentRecord where
  amount : ℚ
  paymentMethod : String
  paymentType : String
  receiptNumber : Option String
  transactionId : Option String
  receivedBy : Nat
  notes : Option String
  deriving DecidableEq

/-- One lab order of a visit (sub-schema labOrderSchema in models/Visit.js). -/
structure LabOrder where
  testName : String
  patient : Nat
  orderedBy : Nat
  status : String
  results : Option String
  notes : Option String
  price : ℚ
  paymentStatus : String
  deriving DecidableEq

/-- The Visit aggregate (visitSchema in models/Visit.js). The schema field
named `type` is rendered `visitType` here. -/
structure Visit where
  visitId : String
  patient : Nat
  doctor : Nat
  status : String
  reason : String
  visitType : String
  startedBy : Nat
  labOrders : List LabOrder
  serviceCharges : List ServiceCharge
  paymentRecords : List PaymentRecord
  totalCharges : ℚ
  insuranceCoverage : ℚ
  patientResponsibility : ℚ
  totalPaid : ℚ
  outstandingBalance : ℚ
  consultationFeePaid : Bool
  consultationFeeAmount : ℚ
  allServicesPaid : Bool
  isActive : Bool
  deriving DecidableEq

/-- `serviceCharges.reduce((sum, charge) => sum + charge.totalPrice, 0)`. -/
def sumTotalPrice (cs : List ServiceCharge) : ℚ :=
  cs.foldl (fun s c => s + c.totalPrice) 0

/-- `serviceCharges.reduce((sum, charge) => sum + charge.insuranceCoverage, 0)`. -/
def sumInsuranceCoverage (cs : List ServiceCharge) : ℚ :=
  cs.foldl (fun s c => s + c.insuranceCoverage) 0

/-- `serviceCharges.reduce((sum, charge) => sum + charge.patientResponsibility, 0)`. -/
def sumPatientResponsibility (cs : List ServiceCharge) : ℚ :=
  cs.foldl (fun s c => s + c.patientResponsibility) 0

/-- `paymentRecords.reduce((sum, payment) => sum + payment.amount, 0)`. -/
def sumAmount (ps : List PaymentRecord) : ℚ :=
  ps.foldl (fun s p => s + p.amount) 0

/-- models/Visit.js, visitSchema.methods.calculateFinancials: recompute the
derived aggregate fields from the two sub-record sequences. -/
def Visit.calculateFinancials (v : Visit) : Visit :=
  let totalCharges := sumTotalPrice v.serviceCharges
  let insuranceCoverage := sumInsuranceCoverage v.serviceCharges
  let patientResponsibility := sumPatientResponsibility v.serviceCharges
  let totalPaid := sumAmount v.paymentRecords
  let outstandingBalance := patientResponsibility - totalPaid
  { v with
      totalCharges := totalCharges
      insuranceCoverage := insuranceCoverage
      patientResponsibility := patientResponsibility
      totalPaid := totalPaid
      outstandingBalance := outstandingBalance
      allServicesPaid := decide (outstandingBalance ≤ 0) }

/-- The argument object destructured by visitSchema.methods.addServiceCharge.
The JavaScript destructuring defaults (`quantity = 1`, `hasInsurance = false`,
`insuranceCoveragePercentage = 0`) are applied by the caller here; every call
site in the repository passes all of these fields. -/
structure ServiceChargeInput where
  serviceType : String
  serviceName : String
  serviceId : Option Nat
  price : ℚ
  quantity : ℚ
  hasInsurance : Bool
  insuranceCoveragePercentage : ℚ
  notes : Option String
  deriving DecidableEq

/-- models/Visit.js, visitSchema.methods.addServiceCharge: append one
ServiceCharge built from the input, then recompute the financial totals. -/
def Visit.addServiceCharge (v : Visit) (d : ServiceChargeInput) (user : Nat) : Visit :=
  let totalPrice := d.price * d.quantity
  let insuranceCoverage :=
    if d.hasInsurance then totalPrice * d.insuranceCoveragePercentage / 100 else 0
  let patientResponsibility := totalPrice - insuranceCoverage
  let charge : ServiceCharge :=
    { serviceType := d.serviceType
      serviceName := d.serviceName
      serviceId := d.serviceId
      price := d.price
      quantity := d.quantity
      totalPrice := totalPrice
      isCoveredByInsurance := d.hasInsurance
      insuranceCoverage := insuranceCoverage
      patientResponsibility := patientResponsibility
      paymentStatus := if d.hasInsurance then "insurance_claimed" else "pending"
      paidAmount := 0
      addedBy := some user
      notes := d.notes }
  ({ v with serviceCharges := v.serviceCharges ++ [charge] }).calculateFinancials

/-- The argument object destructured by visitSchema.methods.recordPayment. -/
structure PaymentData where
  amount : ℚ
  paymentMethod : String
  paymentType : String
  receiptNumber : Option String
  transactionId : Option String
  notes : Option String
  deriving DecidableEq

/-- models/Visit.js, visitSchema.methods.recordPayment: append one
PaymentRecord, mark the consultation fee paid when the payment type is
`consultation_fee`, then recompute the financial totals. -/
def Visit.recordPayment (v : Visit) (p : PaymentData) (user : Nat) : Visit :=
  let record : PaymentRecord :=
    { amount := p.amount
      paymentMethod := p.paymentMethod
      paymentType := p.paymentType
      receiptNumber := p.receiptNumber
      transactionId := p.transactionId
      receivedBy := user
      notes := p.notes }
  let v1 := { v with paymentRecords := v.paymentRecords ++ [record] }
  let v2 :=
    if p.paymentType == "consultation_fee" then
      { v1 with consultationFeePaid := true, consultationFeeAmount := p.amount }
    else v1
  v2.calculateFinancials

/-- The six derived-aggregate invariants of section 3 of the design document. -/
def financialInvariant (v : Visit) : Prop :=
  v.totalCharges = sumTotalPrice v.serviceCharges ∧
  v.insuranceCoverage = sumInsuranceCoverage v.serviceCharges ∧
  v.patientResponsibility = sumPatientResponsibility v.serviceCharges ∧
  v.totalPaid = sumAmount v.paymentRecords ∧
  v.outstandingBalance = v.patientResponsibility - v.totalPaid ∧
  (v.allServicesPaid = true ↔ v.outstandingBalance ≤ 0)

/-- JavaScript truthiness of an optional string field: `undefined`/`null` and
the empty string are falsy, every other string is truthy. -/
def strTruthy : Option String → Bool
  | none => false
  | some s => !s.isEmpty

/-- JavaScript truthiness of an optional numeric field: `undefined`/`null`
and `0` are falsy, every other number is truthy. -/
def numTruthy : Option ℚ → Bool
  | none => false
  | some q => decide (q ≠ 0)

/-- The insurance sub-document of a Patient, as read by this backend. -/
structure Insurance where
  provider : Option String
  deriving DecidableEq

/-- The slice of the Patient document read by the verified operations. -/
structure Patient where
  insurance : Option Insurance
  deriving DecidableEq

/-- `!!(patient.insurance?.provider)` — true exactly when the insurance
sub-document exists and its provider is a non-empty string. -/
def hasInsuranceOf (p : Patient) : Bool :=
  strTruthy (p.insurance.bind Insurance.provider)

/-- Outcome of the payment-eligibility gate once a visit and its patient have
been resolved: either a denial response or a pass-through that attaches the
visit and the insurance flag to the request. -/
inductive GateOutcome where
  | deny (httpStatus : Nat) (message : String) (requiresPayment : Bool) (visitId : String)
  | pass (visit : Visit) (hasInsurance : Bool)
  deriving DecidableEq

/-- middleware/paymentEligibility.js, checkPaymentEligibility, for a request
that resolved to an existing visit with its patient populated (the earlier
missing-id / visit-not-found branches return 400 / 404 before this logic
runs). -/
def checkPaymentEligibility (visit : Visit) (patient : Patient) : GateOutcome :=
  let hasInsurance := hasInsuranceOf patient
  if !hasInsurance then
    if visit.status == "Pending Payment" then
      GateOutcome.deny 403
        "Payment required before ordering services. Please complete payment at the reception."
        true visit.visitId
    else
      GateOutcome.pass visit hasInsurance
  else
    GateOutcome.pass visit hasInsurance

/-- The request body fields read by POST /api/visits. -/
structure CreateVisitReq where
  patientId : Nat
  doctorId : Nat
  status : Option String
  reason : String
  visitType : String
  deriving DecidableEq

/-- Responses of POST /api/visits. -/
inductive CreateVisitResult where
  | badRequest (message : String)
  | notFound (message : String)
  | created (visit : Visit) (message : String)
  deriving DecidableEq

/-- `Visit.findOne({ patient: patientId, isActive: true })`. -/
def findActiveVisit (visits : List Visit) (patientId : Nat) : Option Visit :=
  visits.find? (fun v => v.patient == patientId && v.isActive)

/-- Routes file, POST /api/visits: reject when the patient already has an
active visit, 404 when the patient does not exist, otherwise persist a new
visit whose status is `In Queue` for an insured patient and otherwise
`status || 'Pending Payment'` from the request body. The store of visits is
passed and returned explicitly; `newVisitId` stands for the id the pre-save
hook assigns on first persistence. -/
def createVisit (visits : List Visit) (findPatient : Nat → Option Patient)
    (req : CreateVisitReq) (actorId : Nat) (newVisitId : String) :
    CreateVisitResult × List Visit :=
  match findActiveVisit visits req.patientId with
  | some activeVisit =>
      (CreateVisitResult.badRequest
        ("Patient already has an active visit (Visit ID: " ++ activeVisit.visitId ++
          "). Please end the current visit before starting a new one."), visits)
  | none =>
    match findPatient req.patientId with
    | none => (CreateVisitResult.notFound "Patient not found", visits)
    | some patient =>
      let hasInsurance := hasInsuranceOf patient
      let requestedStatus :=
        match req.status with
        | some s => if s.isEmpty then "Pending Payment" else s
        | none => "Pending Payment"
      let visitStatus := if hasInsurance then "In Queue" else requestedStatus
      let newVisit : Visit :=
        { visitId := newVisitId
          patient := req.patientId
          doctor := req.doctorId
          status := visitStatus
          reason := req.reason
          visitType := req.visitType
          startedBy := actorId
          labOrders := []
          serviceCharges := []
          paymentRecords := []
          totalCharges := 0
          insuranceCoverage := 0
          patientResponsibility := 0
          totalPaid := 0
          outstandingBalance := 0
          consultationFeePaid := false
          consultationFeeAmount := 0
          allServicesPaid := false
          isActive := true }
      (CreateVisitResult.created newVisit
        ("Visit created successfully" ++
          (if hasInsurance then " and moved to In Queue (insurance coverage)"
           else ". Payment is required before services can be ordered.")),
        visits ++ [newVisit])

/-- Projection used to state facts about a successful creation. -/
def createdStatus : CreateVisitResult → Option String
  | CreateVisitResult.created v _ => some v.status
  | _ => none

/-- The raw request body of POST /api/visits/:id/payments: every field may be
absent. -/
structure PaymentRequestBody where
  amount : Option ℚ
  paymentMethod : Option String
  paymentType : Option String
  receiptNumber : Option String
  transactionId : Option String
  notes : Option String
  deriving DecidableEq

/-- Routes file, POST /api/visits/:id/payments, after the visit has been
resolved: reject with 400 when any of amount / paymentMethod / paymentType is
falsy, otherwise record the payment and answer 201. -/
def recordPaymentRoute (v : Visit) (body : PaymentRequestBody) (userId : Nat) :
    Nat × Visit :=
  if !numTruthy body.amount || !strTruthy body.paymentMethod ||
      !strTruthy body.paymentType then
    (400, v)
  else
    (201, v.recordPayment
      { amount := body.amount.getD 0
        paymentMethod := body.paymentMethod.getD ""
        paymentType := body.paymentType.getD ""
        receiptNumber := body.receiptNumber
        transactionId := body.transactionId
        notes := body.notes } userId)

/-- Routes file, POST /api/visits/:id/lab-orders, body of the handler after
both gates passed: push a lab order priced by the catalog lookup (0 when the
lookup throws or finds nothing — both modelled by `lookupPrice = none`), and
append a service charge only when that price is strictly positive. The
charge's serviceId is the storage id of the just-pushed order, not modelled
here. -/
def addLabOrderRoute (v : Visit) (testName : String) (notes : Option String)
    (lookupPrice : Option ℚ) (hasInsurance : Bool) (userId : Nat) : Visit :=
  let servicePrice := lookupPrice.getD 0
  let newLabOrder : LabOrder :=
    { testName := testName
      patient := v.patient
      orderedBy := userId
      status := "Pending"
      results := none
      notes := notes
      price := servicePrice
      paymentStatus := if hasInsurance then "insurance_claimed" else "pending" }
  let v1 := { v with labOrders := v.labOrders ++ [newLabOrder] }
  if servicePrice > 0 then
    v1.addServiceCharge
      { serviceType := "lab_test"
        serviceName := testName
        serviceId := none
        price := servicePrice
        quantity := 1
        hasInsurance := hasInsurance
        insuranceCoveragePercentage := if hasInsurance then 80 else 0
        notes := notes } userId
  else v1

/-- A LabTest document (models/LabTest.js). Its schema declares no price,
visit or notes path, so those keys passed by createLabTest are dropped by the
ODM on create. -/
structure LabTestDoc where
  testName : String
  patient : Nat
  orderedBy : Nat
  status : String
  results : Option String
  category : Option String
  code : Option String
  deriving DecidableEq

/-- controllers/labTestController.js, createLabTest, after the eligibility
middleware attached the visit and the insurance flag: the LabTest document is
created in its own collection (carrying no price), and the visit is modified
— one service charge added and saved — only when the price lookup produced a
strictly positive price. `lookupPrice = none` models both a thrown lookup and
a catalog miss; the charge's serviceId is the created document's storage id,
not modelled here. -/
def createLabTest (visit : Visit) (patientId : Nat) (testName : String)
    (notes : Option String) (lookupPrice : Option ℚ) (hasInsurance : Bool)
    (userId : Nat) : LabTestDoc × Visit :=
  let servicePrice := lookupPrice.getD 0
  let labTest : LabTestDoc :=
    { testName := testName
      patient := patientId
      orderedBy := userId
      status := "Pending"
      results := none
      category := none
      code := none }
  if servicePrice > 0 then
    (labTest,
      visit.addServiceCharge
        { serviceType := "lab_test"
          serviceName := testName
          serviceId := none
          price := servicePrice
          quantity := 1
          hasInsurance := hasInsurance
          insuranceCoveragePercentage := if hasInsurance then 80 else 0
          notes := notes } userId)
  else (labTest, visit)

/-- Routes file, PATCH /api/visits/:id/payment-status, after the visit has
been resolved: move to In Queue (and mark the consultation fee paid) only
when the status is exactly Pending Payment and the confirmation flag is
truthy; answer 400 and change nothing otherwise. -/
def updatePaymentStatus (v : Visit) (paymentConfirmed : Bool) : Nat × Visit :=
  if v.status == "Pending Payment" && paymentConfirmed then
    (200, { v with status := "In Queue", consultationFeePaid := true })
  else
    (400, v)

/-- Routes file, PATCH /api/visits/:id/end-visit, after the visit has been
resolved: `visit.isActive = !visit.isActive`. -/
def endVisitRoute (v : Visit) : Visit :=
  { v with isActive := !v.isActive }

/-- Number of active visits a given patient has in the store. -/
def activeVisitCountFor (visits : List Visit) (patientId : Nat) : Nat :=
  (visits.filter (fun v => v.patient == patientId && v.isActive)).length

/-- A baseline visit used by concrete witnesses: freshly created, uninsured,
no charges and no payments. -/
def emptyVisit : Visit :=
  { visitId := "V25000001"
    patient := 1
    doctor := 2
    status := "Pending Payment"
    reason := "checkup"
    visitType := "consultation"
    startedBy := 3
    labOrders := []
    serviceCharges := []
    paymentRecords := []
    totalCharges := 0
    insuranceCoverage := 0
    patientResponsibility := 0
    totalPaid := 0
    outstandingBalance := 0
    consultationFeePaid := false
    consultationFeeAmount := 0
    allServicesPaid := false
    isActive := true }

/-- A closed (ended) visit of patient 1. -/
def endedVisit : Visit :=
  { emptyVisit with visitId := "V25000001", status := "completed", isActive := false }

/-- The current active visit of patient 1. -/
def currentVisit : Visit :=
  { emptyVisit with visitId := "V25000002", status := "In Queue", isActive := true }

/-- A patient lookup with a single uninsured patient, id 1. -/
def uninsuredLookup : Nat → Option Patient := fun n =>
  if n == 1 then some { insurance := none } else none

/-- A patient lookup with a single insured patient, id 1. -/
def insuredLookup : Nat → Option Patient := fun n =>
  if n == 1 then some { insurance := some { provider := some "NHIF" } } else none

/-- A creation request that supplies its own status in the body. -/
def overrideStatusReq : CreateVisitReq :=
  { patientId := 1
    doctorId := 2
    status := some "In Queue"
    reason := "checkup"
    visitType := "consultation" }

/-- A creation request that supplies no status in the body. -/
def plainReq : CreateVisitReq :=
  { patientId := 1
    doctorId := 2
    status := none
    reason := "checkup"
    visitType := "consultation" }

/-- The visit produced by a successful insured creation of `plainReq`. -/
def insuredCreatedVisit : Visit :=
  { emptyVisit with status := "In Queue" }

/-- A payment request body whose three mandatory fields are all present but
whose amount is 0 (falsy in JavaScript). -/
def zeroAmountBody : PaymentRequestBody :=
  { amount := some 0
    paymentMethod := some "cash"
    paymentType := some "deposit"
    receiptNumber := none
    transactionId := none
    notes := none }

/-- A complete, truthy payment request body. -/
def fullPaymentBody : PaymentRequestBody :=
  { amount := some 50
    paymentMethod := some "cash"
    paymentType := some "consultation_fee"
    receiptNumber := some "R-001"
    transactionId := none
    notes := none }

/-- A concrete consultation-fee payment. -/
def consultationPayment : PaymentData :=
  { amount := 50
    paymentMethod := "cash"
    paymentType := "consultation_fee"
    receiptNumber := some "R-001"
    transactionId := none
    notes := none }

/-- A concrete insured lab-test charge input. -/
def labTestCharge : ServiceChargeInput :=
  { serviceType := "lab_test"
    serviceName := "Complete Blood Count"
    serviceId := some 11
    price := 100
    quantity := 1
    hasInsurance := true
    insuranceCoveragePercentage := 80
    notes := none }

theorem calculateFinancials_establishes (v : Visit) :
    financialInvariant v.calculateFinancials := by
  refine ⟨rfl, rfl, rfl, rfl, rfl, ?_⟩
  exact decide_eq_true_iff

/-- C1: after every addServiceCharge or recordPayment call on a Visit, the
derived aggregates are exactly the sums over the two sub-record sequences,
the outstanding balance is patientResponsibility minus totalPaid (signed, not
clamped), and allServicesPaid holds exactly when the outstanding balance is
at most zero. -/
theorem ledger_invariants_after_mutation (v : Visit) (d : ServiceChargeInput)
    (p : PaymentData) (u1 u2 : Nat) :
    financialInvariant (v.addServiceCharge d u1) ∧
    financialInvariant (v.recordPayment p u2) := by
  unfold Visit.addServiceCharge Visit.recordPayment
  exact ⟨calculateFinancials_establishes _, calculateFinancials_establishes _⟩

/-- C2: addServiceCharge appends exactly one charge, whose totalPrice is
price times quantity, whose insuranceCoverage is totalPrice times the
coverage percentage over 100 when insured and zero otherwise, whose
patientResponsibility is totalPrice minus insuranceCoverage, and whose
initial payment status is insurance_claimed when insured, pending
otherwise. -/
theorem addServiceCharge_appended_charge (v : Visit) (d : ServiceChargeInput)
    (u : Nat) :
    ∃ c : ServiceCharge,
      (v.addServiceCharge d u).serviceCharges = v.serviceCharges ++ [c] ∧
      c.totalPrice = d.price * d.quantity ∧
      c.insuranceCoverage =
        (if d.hasInsurance then d.price * d.quantity * d.insuranceCoveragePercentage / 100
         else 0) ∧
      c.patientResponsibility = c.totalPrice - c.insuranceCoverage ∧
      c.paymentStatus = (if d.hasInsurance then "insurance_claimed" else "pending") := by
  exact ⟨_, rfl, rfl, rfl, rfl, rfl⟩

/-- C3: on a resolved visit with its patient loaded, the gate denies with the
structured payment-required signal (carrying requiresPayment and the visit's
human-readable visitId) exactly when the patient has no insurance and the
visit status is exactly Pending Payment; in every other combination it passes
through, attaching the visit and the hasInsurance flag. -/
theorem checkPaymentEligibility_decision (v : Visit) (p : Patient) :
    (checkPaymentEligibility v p =
        GateOutcome.deny 403
          "Payment required before ordering services. Please complete payment at the reception."
          true v.visitId
      ↔ hasInsuranceOf p = false ∧ v.status = "Pending Payment") ∧
    (¬(hasInsuranceOf p = false ∧ v.status = "Pending Payment") →
      checkPaymentEligibility v p = GateOutcome.pass v (hasInsuranceOf p)) := by
  unfold checkPaymentEligibility
  rcases h : hasInsuranceOf p with _ | _ <;>
    rcases hs : v.status == "Pending Payment" with _ | _ <;>
      simp_all [beq_iff_eq]

/-- Witness for C3: an uninsured patient with a visit already In Queue passes
the gate. -/
theorem checkPaymentEligibility_decision_witness :
    checkPaymentEligibility
        { emptyVisit with status := "In Queue" } { insurance := none } =
      GateOutcome.pass { emptyVisit with status := "In Queue" }
        (hasInsuranceOf { insurance := none }) :=
  (checkPaymentEligibility_decision
    { emptyVisit with status := "In Queue" } { insurance := none }).2 (by decide)

theorem calculateFinancials_idem (v : Visit) :
    v.calculateFinancials.calculateFinancials = v.calculateFinancials := rfl

theorem calculateFinancials_iterate (n : Nat) :
    ∀ v : Visit, Visit.calculateFinancials^[n + 1] v = v.calculateFinancials := by
  induction n with
  | zero => intro v; rfl
  | succ m ih =>
    intro v
    rw [Function.iterate_succ_apply, ih (Visit.calculateFinancials v),
      calculateFinancials_idem]

/-- C4: the financial recompute is idempotent — iterating it n times, for any
n at least 1, gives the same visit as one application — and it changes
nothing besides the derived aggregate fields. -/
theorem calculateFinancials_idempotent (v : Visit) (n : Nat) (h : 1 ≤ n) :
    Visit.calculateFinancials^[n] v = v.calculateFinancials ∧
    v.calculateFinancials.serviceCharges = v.serviceCharges ∧
    v.calculateFinancials.paymentRecords = v.paymentRecords ∧
    v.calculateFinancials.labOrders = v.labOrders ∧
    v.calculateFinancials.visitId = v.visitId ∧
    v.calculateFinancials.patient = v.patient ∧
    v.calculateFinancials.doctor = v.doctor ∧
    v.calculateFinancials.status = v.status ∧
    v.calculateFinancials.reason = v.reason ∧
    v.calculateFinancials.visitType = v.visitType ∧
    v.calculateFinancials.startedBy = v.startedBy ∧
    v.calculateFinancials.consultationFeePaid = v.consultationFeePaid ∧
    v.calculateFinancials.consultationFeeAmount = v.consultationFeeAmount ∧
    v.calculateFinancials.isActive = v.isActive := by
  obtain ⟨m, rfl⟩ := Nat.exists_eq_add_of_le h
  refine ⟨?_, rfl, rfl, rfl, rfl, rfl, rfl, rfl, rfl, rfl, rfl, rfl, rfl, rfl⟩
  rw [Nat.add_comm]
  exact calculateFinancials_iterate m v

/-- Witness for C4: three recomputes of the empty visit equal one. -/
theorem calculateFinancials_idempotent_witness :
    Visit.calculateFinancials^[3] emptyVisit = emptyVisit.calculateFinancials ∧
    emptyVisit.calculateFinancials.serviceCharges = emptyVisit.serviceCharges ∧
    emptyVisit.calculateFinancials.paymentRecords = emptyVisit.paymentRecords ∧
    emptyVisit.calculateFinancials.labOrders = emptyVisit.labOrders ∧
    emptyVisit.calculateFinancials.visitId = emptyVisit.visitId ∧
    emptyVisit.calculateFinancials.patient = emptyVisit.patient ∧
    emptyVisit.calculateFinancials.doctor = emptyVisit.doctor ∧
    emptyVisit.calculateFinancials.status = emptyVisit.status ∧
    emptyVisit.calculateFinancials.reason = emptyVisit.reason ∧
    emptyVisit.calculateFinancials.visitType = emptyVisit.visitType ∧
    emptyVisit.calculateFinancials.startedBy = emptyVisit.startedBy ∧
    emptyVisit.calculateFinancials.consultationFeePaid = emptyVisit.consultationFeePaid ∧
    emptyVisit.calculateFinancials.consultationFeeAmount = emptyVisit.consultationFeeAmount ∧
    emptyVisit.calculateFinancials.isActive = emptyVisit.isActive :=
  calculateFinancials_idempotent emptyVisit 3 (by decide)

/-- C5 (code bug): PATCH /:id/end-visit toggles isActive instead of clearing
it. Patient 1 starts with one ended and one active visit — the at-most-one-
active invariant holds; the end-visit route applied to the already-ended
visit reactivates it, leaving the patient with two active visits. -/
theorem endVisit_toggle_breaks_single_active :
    activeVisitCountFor [endedVisit, currentVisit] 1 = 1 ∧
    endVisitRoute endedVisit = { endedVisit with isActive := true } ∧
    activeVisitCountFor [endVisitRoute endedVisit, currentVisit] 1 = 2 :=
  ⟨rfl, rfl, rfl⟩

/-- C6 counterexample: an uninsured patient whose creation request carries
`status: "In Queue"` in the body gets a visit created with status In Queue,
not Pending Payment. -/
theorem createVisit_uninsured_status_counterexample :
    hasInsuranceOf { insurance := none } = false ∧
    createdStatus (createVisit [] uninsuredLookup overrideStatusReq 9 "V25000001").1 =
      some "In Queue" ∧
    some "In Queue" ≠ some "Pending Payment" := by
  refine ⟨rfl, rfl, by decide⟩

/-- C6 amended: a successfully created visit has status In Queue whenever the
patient is insured; when the patient is uninsured the status is the one
supplied in the request body if that one is truthy (present and non-empty),
and Pending Payment otherwise. -/
theorem createVisit_status_seeding_amended (visits : List Visit)
    (findPatient : Nat → Option Patient) (req : CreateVisitReq) (actorId : Nat)
    (newVisitId : String) (vNew : Visit) (msg : String) (rest : List Visit)
    (hc : createVisit visits findPatient req actorId newVisitId =
      (CreateVisitResult.created vNew msg, rest)) :
    ∃ patient, findPatient req.patientId = some patient ∧
      (hasInsuranceOf patient = true → vNew.status = "In Queue") ∧
      (hasInsuranceOf patient = false → strTruthy req.status = false →
        vNew.status = "Pending Payment") ∧
      (hasInsuranceOf patient = false → ∀ s, req.status = some s →
        s.isEmpty = false → vNew.status = s) := by
  unfold createVisit at hc
  cases hfa : findActiveVisit visits req.patientId with
  | some av => rw [hfa] at hc; simp at hc
  | none =>
    rw [hfa] at hc
    cases hfp : findPatient req.patientId with
    | none => rw [hfp] at hc; simp at hc
    | some patient =>
      rw [hfp] at hc
      simp only [Prod.mk.injEq, CreateVisitResult.created.injEq] at hc
      obtain ⟨⟨hv, -⟩, -⟩ := hc
      refine ⟨patient, rfl, ?_, ?_, ?_⟩
      · intro hins
        rw [← hv]
        simp [hins]
      · intro hins hts
        rw [← hv]
        simp only [hins, if_false]
        cases hs : req.status with
        | none => rfl
        | some s =>
          rw [hs] at hts
          simp only [strTruthy, Bool.not_eq_false'] at hts
          simp [hts]
      · intro hins s hs hse
        rw [← hv]
        simp [hins, hs, hse]

/-- Witness for C6 amended: creating a visit for an insured patient with no
status in the body succeeds, and the theorem applies to that creation. -/
theorem createVisit_status_seeding_amended_witness :
    ∃ patient, insuredLookup plainReq.patientId = some patient ∧
      (hasInsuranceOf patient = true → insuredCreatedVisit.status = "In Queue") ∧
      (hasInsuranceOf patient = false → strTruthy plainReq.status = false →
        insuredCreatedVisit.status = "Pending Payment") ∧
      (hasInsuranceOf patient = false → ∀ s, plainReq.status = some s →
        s.isEmpty = false → insuredCreatedVisit.status = s) :=
  createVisit_status_seeding_amended [] insuredLookup plainReq 3 "V25000001"
    insuredCreatedVisit
    "Visit created successfully and moved to In Queue (insurance coverage)"
    [insuredCreatedVisit] rfl

/-- C7 counterexample: a request in which amount, paymentMethod and
paymentType are all present — with amount 0 — is rejected with 400 and no
PaymentRecord is appended, refuting that presence of the three fields
suffices for a record to be appended. -/
theorem recordPaymentRoute_present_fields_counterexample :
    (zeroAmountBody.amount ≠ none ∧ zeroAmountBody.paymentMethod ≠ none ∧
      zeroAmountBody.paymentType ≠ none) ∧
    (recordPaymentRoute emptyVisit zeroAmountBody 7).1 = 400 ∧
    ¬∃ r : PaymentRecord,
      (recordPaymentRoute emptyVisit zeroAmountBody 7).2.paymentRecords =
        emptyVisit.paymentRecords ++ [r] := by
  refine ⟨by decide, rfl, ?_⟩
  rintro ⟨r, hr⟩
  exact List.noConfusion hr

theorem recordPayment_paymentRecords (v : Visit) (p : PaymentData) (u : Nat) :
    (v.recordPayment p u).paymentRecords =
      v.paymentRecords ++
        [{ amount := p.amount
           paymentMethod := p.paymentMethod
           paymentType := p.paymentType
           receiptNumber := p.receiptNumber
           transactionId := p.transactionId
           receivedBy := u
           notes := p.notes }] := by
  unfold Visit.recordPayment Visit.calculateFinancials
  split <;> rfl

/-- C7 amended: the payment route fails with 400 and leaves the visit
untouched exactly when one of the three mandatory fields is falsy — amount
absent or zero, paymentMethod or paymentType absent or empty (so an amount
of 0 is rejected even though present, and a negative amount is accepted);
otherwise it answers 201 and appends one PaymentRecord carrying the request
amount with receivedBy set to the acting user. -/
theorem recordPaymentRoute_validation_amended (v : Visit)
    (body : PaymentRequestBody) (u : Nat) :
    (¬(numTruthy body.amount = true ∧ strTruthy body.paymentMethod = true ∧
        strTruthy body.paymentType = true) →
      recordPaymentRoute v body u = (400, v)) ∧
    (numTruthy body.amount = true ∧ strTruthy body.paymentMethod = true ∧
        strTruthy body.paymentType = true →
      (recordPaymentRoute v body u).1 = 201 ∧
      ∃ r : PaymentRecord,
        (recordPaymentRoute v body u).2.paymentRecords = v.paymentRecords ++ [r] ∧
        r.amount = body.amount.getD 0 ∧ r.receivedBy = u) := by
  constructor
  · intro hfail
    unfold recordPaymentRoute
    rcases ha : numTruthy body.amount with _ | _ <;>
      rcases hm : strTruthy body.paymentMethod with _ | _ <;>
        rcases ht : strTruthy body.paymentType with _ | _ <;>
          simp_all
  · rintro ⟨ha, hm, ht⟩
    unfold recordPaymentRoute
    rw [ha, hm, ht]
    exact ⟨rfl, _, recordPayment_paymentRecords v _ u, rfl, rfl⟩

/-- Witness for C7 amended: a cash consultation-fee payment of 50 with all
fields present is accepted and appended. -/
theorem recordPaymentRoute_validation_amended_witness :
    (¬(numTruthy fullPaymentBody.amount = true ∧
        strTruthy fullPaymentBody.paymentMethod = true ∧
        strTruthy fullPaymentBody.paymentType = true) →
      recordPaymentRoute emptyVisit fullPaymentBody 7 = (400, emptyVisit)) ∧
    (numTruthy fullPaymentBody.amount = true ∧
        strTruthy fullPaymentBody.paymentMethod = true ∧
        strTruthy fullPaymentBody.paymentType = true →
      (recordPaymentRoute emptyVisit fullPaymentBody 7).1 = 201 ∧
      ∃ r : PaymentRecord,
        (recordPaymentRoute emptyVisit fullPaymentBody 7).2.paymentRecords =
          emptyVisit.paymentRecords ++ [r] ∧
        r.amount = fullPaymentBody.amount.getD 0 ∧ r.receivedBy = 7) :=
  recordPaymentRoute_validation_amended emptyVisit fullPaymentBody 7

/-- C8 counterexample: a lab order whose price lookup found nothing appends
no service charge at all — the serviceCharges sequence stays empty — rather
than appending one at price 0. -/
theorem labOrder_no_charge_counterexample :
    ¬∃ c : ServiceCharge,
      (addLabOrderRoute emptyVisit "Complete Blood Count" none none false 7).serviceCharges =
        emptyVisit.serviceCharges ++ [c] := by
  rintro ⟨c, hc⟩
  exact List.noConfusion hc

/-- C8 amended, covering both cited handlers on a failed or empty price
lookup: the lab-order route appends no service charge, changes no aggregate
financial field, and still records the lab order on the visit at price 0; the
createLabTest controller leaves the visit entirely unmodified and creates the
LabTest document — which carries no price at all — in its own collection. -/
theorem clinicalOrder_missing_price_amended (v : Visit) (pid : Nat)
    (t : String) (nt : Option String) (hi : Bool) (u : Nat) (lp : Option ℚ)
    (hl : lp = none) :
    (addLabOrderRoute v t nt lp hi u).serviceCharges = v.serviceCharges ∧
    (addLabOrderRoute v t nt lp hi u).totalCharges = v.totalCharges ∧
    (addLabOrderRoute v t nt lp hi u).insuranceCoverage = v.insuranceCoverage ∧
    (addLabOrderRoute v t nt lp hi u).patientResponsibility = v.patientResponsibility ∧
    (addLabOrderRoute v t nt lp hi u).totalPaid = v.totalPaid ∧
    (addLabOrderRoute v t nt lp hi u).outstandingBalance = v.outstandingBalance ∧
    (addLabOrderRoute v t nt lp hi u).allServicesPaid = v.allServicesPaid ∧
    (∃ o : LabOrder, (addLabOrderRoute v t nt lp hi u).labOrders = v.labOrders ++ [o] ∧
      o.price = 0) ∧
    (createLabTest v pid t nt lp hi u).2 = v ∧
    (createLabTest v pid t nt lp hi u).1 =
      { testName := t
        patient := pid
        orderedBy := u
        status := "Pending"
        results := none
        category := none
        code := none } := by
  subst hl
  unfold addLabOrderRoute createLabTest
  simp only [Option.getD_none]
  rw [if_neg (by norm_num : ¬(0 : ℚ) > 0)]
  exact ⟨rfl, rfl, rfl, rfl, rfl, rfl, rfl, ⟨_, rfl, rfl⟩, rfl, rfl⟩

/-- Witness for C8 amended: a failed lookup on the empty visit changes no
aggregate in the lab-order route, appends a price-0 order there, and leaves
the visit untouched in the createLabTest path. -/
theorem clinicalOrder_missing_price_amended_witness :
    (addLabOrderRoute emptyVisit "X-Ray" none none true 7).serviceCharges =
      emptyVisit.serviceCharges ∧
    (addLabOrderRoute emptyVisit "X-Ray" none none true 7).totalCharges =
      emptyVisit.totalCharges ∧
    (addLabOrderRoute emptyVisit "X-Ray" none none true 7).insuranceCoverage =
      emptyVisit.insuranceCoverage ∧
    (addLabOrderRoute emptyVisit "X-Ray" none none true 7).patientResponsibility =
      emptyVisit.patientResponsibility ∧
    (addLabOrderRoute emptyVisit "X-Ray" none none true 7).totalPaid =
      emptyVisit.totalPaid ∧
    (addLabOrderRoute emptyVisit "X-Ray" none none true 7).outstandingBalance =
      emptyVisit.outstandingBalance ∧
    (addLabOrderRoute emptyVisit "X-Ray" none none true 7).allServicesPaid =
      emptyVisit.allServicesPaid ∧
    (∃ o : LabOrder,
      (addLabOrderRoute emptyVisit "X-Ray" none none true 7).labOrders =
        emptyVisit.labOrders ++ [o] ∧ o.price = 0) ∧
    (createLabTest emptyVisit 1 "X-Ray" none none true 7).2 = emptyVisit ∧
    (createLabTest emptyVisit 1 "X-Ray" none none true 7).1 =
      { testName := "X-Ray"
        patient := 1
        orderedBy := 7
        status := "Pending"
        results := none
        category := none
        code := none } :=
  clinicalOrder_missing_price_amended emptyVisit 1 "X-Ray" none true 7 none rfl

/-- C9: the payment-confirmation route moves a visit from Pending Payment to
In Queue (also marking the consultation fee paid) exactly when an explicit
confirmation is supplied and the current status is exactly Pending Payment;
otherwise it answers 400 and leaves the visit unchanged, and any status
change it ever makes is that one transition. -/
theorem updatePaymentStatus_transition (v : Visit) (confirmed : Bool) :
    (v.status = "Pending Payment" ∧ confirmed = true →
      updatePaymentStatus v confirmed =
        (200, { v with status := "In Queue", consultationFeePaid := true })) ∧
    (¬(v.status = "Pending Payment" ∧ confirmed = true) →
      updatePaymentStatus v confirmed = (400, v)) ∧
    ((updatePaymentStatus v confirmed).2.status ≠ v.status →
      v.status = "Pending Payment" ∧
        (updatePaymentStatus v confirmed).2.status = "In Queue") := by
  unfold updatePaymentStatus
  rcases hs : v.status == "Pending Payment" with _ | _ <;>
    rcases hc : confirmed with _ | _ <;>
      simp_all [beq_iff_eq]

/-- Witness for C9: confirming a Pending Payment visit moves it to In Queue
with the consultation fee marked paid. -/
theorem updatePaymentStatus_transition_witness :
    updatePaymentStatus emptyVisit true =
      (200, { emptyVisit with status := "In Queue", consultationFeePaid := true }) :=
  (updatePaymentStatus_transition emptyVisit true).1 ⟨rfl, rfl⟩

/-- C10: recordPayment appends exactly one PaymentRecord, never touches the
serviceCharges sequence, status, isActive or the lab orders, and touches the
consultation-fee pair only on consultation_fee payments; addServiceCharge
appends exactly one ServiceCharge and never touches the paymentRecords
sequence, status, isActive, lab orders or the consultation-fee pair. -/
theorem mutators_frame (v : Visit) (p : PaymentData) (d : ServiceChargeInput)
    (u1 u2 : Nat) :
    (∃ r : PaymentRecord,
      (v.recordPayment p u1).paymentRecords = v.paymentRecords ++ [r]) ∧
    (v.recordPayment p u1).serviceCharges = v.serviceCharges ∧
    (v.recordPayment p u1).status = v.status ∧
    (v.recordPayment p u1).isActive = v.isActive ∧
    (v.recordPayment p u1).labOrders = v.labOrders ∧
    (p.paymentType ≠ "consultation_fee" →
      (v.recordPayment p u1).consultationFeePaid = v.consultationFeePaid ∧
      (v.recordPayment p u1).consultationFeeAmount = v.consultationFeeAmount) ∧
    (p.paymentType = "consultation_fee" →
      (v.recordPayment p u1).consultationFeePaid = true ∧
      (v.recordPayment p u1).consultationFeeAmount = p.amount) ∧
    (∃ c : ServiceCharge,
      (v.addServiceCharge d u2).serviceCharges = v.serviceCharges ++ [c]) ∧
    (v.addServiceCharge d u2).paymentRecords = v.paymentRecords ∧
    (v.addServiceCharge d u2).status = v.status ∧
    (v.addServiceCharge d u2).isActive = v.isActive ∧
    (v.addServiceCharge d u2).labOrders = v.labOrders ∧
    (v.addServiceCharge d u2).consultationFeePaid = v.consultationFeePaid ∧
    (v.addServiceCharge d u2).consultationFeeAmount = v.consultationFeeAmount := by
  unfold Visit.recordPayment Visit.addServiceCharge Visit.calculateFinancials
  rcases hpt : p.paymentType == "consultation_fee" with _ | _
  · refine ⟨⟨_, rfl⟩, rfl, rfl, rfl, rfl, fun _ => ⟨rfl, rfl⟩, fun hh => ?_,
      ⟨_, rfl⟩, rfl, rfl, rfl, rfl, rfl, rfl⟩
    rw [hh] at hpt
    simp at hpt
  · refine ⟨⟨_, rfl⟩, rfl, rfl, rfl, rfl, fun hh => ?_, fun _ => ⟨rfl, rfl⟩,
      ⟨_, rfl⟩, rfl, rfl, rfl, rfl, rfl, rfl⟩
    rw [beq_iff_eq] at hpt
    exact absurd hpt hh

/-- Witness for C10: the frame property at a concrete consultation-fee
payment and a concrete lab-test charge on the empty visit. -/
theorem mutators_frame_witness :
    (∃ r : PaymentRecord,
      (emptyVisit.recordPayment consultationPayment 7).paymentRecords =
        emptyVisit.paymentRecords ++ [r]) ∧
    (emptyVisit.recordPayment consultationPayment 7).serviceCharges =
      emptyVisit.serviceCharges ∧
    (emptyVisit.recordPayment consultationPayment 7).status = emptyVisit.status ∧
    (emptyVisit.recordPayment consultationPayment 7).isActive = emptyVisit.isActive ∧
    (emptyVisit.recordPayment consultationPayment 7).labOrders = emptyVisit.labOrders ∧
    (consultationPayment.paymentType ≠ "consultation_fee" →
      (emptyVisit.recordPayment consultationPayment 7).consultationFeePaid =
        emptyVisit.consultationFeePaid ∧
      (emptyVisit.recordPayment consultationPayment 7).consultationFeeAmount =
        emptyVisit.consultationFeeAmount) ∧
    (consultationPayment.paymentType = "consultation_fee" →
      (emptyVisit.recordPayment consultationPayment 7).consultationFeePaid = true ∧
      (emptyVisit.recordPayment consultationPayment 7).consultationFeeAmount =
        consultationPayment.amount) ∧
    (∃ c : ServiceCharge,
      (emptyVisit.addServiceCharge labTestCharge 8).serviceCharges =
        emptyVisit.serviceCharges ++ [c]) ∧
    (emptyVisit.addServiceCharge labTestCharge 8).paymentRecords =
      emptyVisit.paymentRecords ∧
    (emptyVisit.addServiceCharge labTestCharge 8).status = emptyVisit.status ∧
    (emptyVisit.addServiceCharge labTestCharge 8).isActive = emptyVisit.isActive ∧
    (emptyVisit.addServiceCharge labTestCharge 8).labOrders = emptyVisit.labOrders ∧
    (emptyVisit.addServiceCharge labTestCharge 8).consultationFeePaid =
      emptyVisit.consultationFeePaid ∧
    (emptyVisit.addServiceCharge labTestCharge 8).consultationFeeAmount =
      emptyVisit.consultationFeeAmount :=
  mutators_frame emptyVisit consultationPayment labTestCharge 7 8

end SegeseBackend
